import Mathlib

/-!
Shallow embedding of the FFI boundary layer in src/rust-wrapper/src/lib.rs.

Each exported C function is modelled as a pure Lean function.  Pointer
arguments are modelled by their nullness (a `Bool` flag per pointer); the
outcome of each call into the external pty/process primitive is an input of
type `PrimResult` (`ok`, `err` with the error's display string, or `panic`
for an unwind caught by `catch_unwind`).  The observable effects of a call
(integer return value, whether each output slot was written and with what,
whether the opened pty pair was dropped, whether the child handle was
consumed) are collected in a small record per operation.
-/

namespace PtyFFI

/-- Outcome of a call into an external primitive, as observed at the FFI
boundary: a normal result, an error carrying its display string, or a panic
(an unwind caught by `catch_unwind`). -/
inductive PrimResult (α : Type) where
  | ok : α → PrimResult α
  | err : String → PrimResult α
  | panic : PrimResult α
deriving DecidableEq

/-- Message produced by the null-pointer check in `pty_open_and_spawn`. -/
def nullPtrMsg : String := "Null pointer provided"

/-- Fallback used when the openpty error string cannot become a C string. -/
def openFailDflt : String := "Failed to open PTY"

/-- Fallback used when the spawn error string cannot become a C string. -/
def spawnFailDflt : String := "Failed to spawn command"

/-- Message written when a panic escapes the open+spawn body. -/
def panicOpenSpawnMsg : String := "Panic during PTY open/spawn"

/-- Fallback used by the other operations for un-encodable error strings. -/
def unknownErr : String := "Unknown error"

/-- Panic diagnostic of `pty_get_reader`. -/
def faultGetReader : String := "something is wrong in pty_get_reader"

/-- Panic diagnostic of `pty_get_writer`. -/
def faultGetWriter : String := "something is wrong in pty_get_writer"

/-- Panic diagnostic of `pty_read`. -/
def faultRead : String := "something is wrong in pty_read"

/-- Panic diagnostic of `pty_write`. -/
def faultWrite : String := "something is wrong in pty_write"

/-- Panic diagnostic of `pty_resize`. -/
def faultResize : String := "something is wrong in pty_resize"

/-- Models `CString::new(s).unwrap_or_else(.. CString::new(dflt) ..)`:
the conversion fails exactly when `s` contains an interior NUL byte, in
which case the fallback message is used instead. -/
def cstringOr (s dflt : String) : String :=
  if s.toList.contains (Char.ofNat 0) then dflt else s

/-- Models the `bytes as isize` cast of a `usize` byte count. -/
def isizeOfNat (n : Nat) : Int :=
  if n % 2 ^ 64 < 2 ^ 63 then ((n % 2 ^ 64 : Nat) : Int)
  else ((n % 2 ^ 64 : Nat) : Int) - 2 ^ 64

/-- Observable effects of one `pty_open_and_spawn` call. -/
structure OpenSpawnOut where
  ret : Int
  masterWritten : Bool
  childWritten : Bool
  errWritten : Option String
  openInvoked : Bool
  pairOpened : Bool
  pairDropped : Bool
  spawnInvoked : Bool
  spawnCmd : Option (String × List String)
deriving DecidableEq

/-- The argument-parsing loop of `pty_open_and_spawn` (lines 85-96):
iterate over the `argc` entries of `argv`, `continue` on a null entry,
append the string of every non-null entry. -/
def buildArgs : List (Option String) → List String
  | [] => []
  | none :: rest => buildArgs rest
  | some a :: rest => a :: buildArgs rest

/-- Arguments appended to the command builder: the loop runs only when
`argv` is non-null and `argc > 0`. -/
def argsFor (argvNull : Bool) (argv : List (Option String)) : List String :=
  if !argvNull && argv.length != 0 then buildArgs argv else []

/-- Model of `pty_open_and_spawn` (lines 47-123).  `argv` is the list of
the `argc` pointed-to entries (a null entry is `none`); `openRes` and
`spawnRes` are the outcomes of `openpty` and `spawn_command`. -/
def pty_open_and_spawn (masterOutNull childOutNull progNull : Bool)
    (prog : String) (argvNull : Bool) (argv : List (Option String))
    (openRes : PrimResult Unit) (spawnRes : PrimResult Unit) : OpenSpawnOut :=
  if masterOutNull || childOutNull || progNull then
    ⟨-1, false, false, some nullPtrMsg, false, false, false, false, none⟩
  else
    match openRes with
    | .err e =>
        ⟨-1, false, false, some (cstringOr e openFailDflt),
          true, false, false, false, none⟩
    | .panic =>
        ⟨-1, false, false, some panicOpenSpawnMsg,
          true, false, false, false, none⟩
    | .ok _ =>
        let cmd := (prog, argsFor argvNull argv)
        match spawnRes with
        | .ok _ =>
            ⟨0, true, true, none, true, true, false, true, some cmd⟩
        | .err e =>
            ⟨-1, false, false, some (cstringOr e spawnFailDflt),
              true, true, true, true, some cmd⟩
        | .panic =>
            ⟨-1, false, false, some panicOpenSpawnMsg,
              true, true, true, true, some cmd⟩

/-- Observable effects of an operation that produces a derived handle. -/
structure StreamOut where
  ret : Int
  outWritten : Bool
  errWritten : Option String
deriving DecidableEq

/-- Observable effects of an operation with only a diagnostic slot. -/
structure IOOut where
  ret : Int
  errWritten : Option String
deriving DecidableEq

/-- Model of `pty_get_reader` (lines 137-168). -/
def pty_get_reader (masterNull outReaderNull : Bool)
    (cloneRes : PrimResult Unit) : StreamOut :=
  if masterNull || outReaderNull then ⟨-1, false, none⟩
  else
    match cloneRes with
    | .ok _ => ⟨0, true, none⟩
    | .err e => ⟨-1, false, some (cstringOr e unknownErr)⟩
    | .panic => ⟨-1, false, some faultGetReader⟩

/-- State of the underlying master object that `pty_get_writer` threads:
whether its writer has already been taken. -/
structure MasterState where
  writerTaken : Bool
deriving DecidableEq

/-- Message the primitive reports on a repeated take. -/
def writerTakenMsg : String := "writer already taken"

/-- Modelled from the spec: the external pty primitive's `take_writer`
(the `portable_pty` crate, not part of this repository) hands out the
writer at most once per master; a second take fails with an
already-taken error (spec 4.3, `AlreadyTakenError`). -/
def take_writer (st : MasterState) : MasterState × PrimResult Unit :=
  if st.writerTaken then (st, .err writerTakenMsg)
  else (⟨true⟩, .ok ())

/-- Outcome handling of the `pty_get_writer` body (lines 191-213): how a
primitive outcome is mapped to return value and slot writes. -/
def get_writer_body (res : PrimResult Unit) : StreamOut :=
  match res with
  | .ok _ => ⟨0, true, none⟩
  | .err e => ⟨-1, false, some (cstringOr e unknownErr)⟩
  | .panic => ⟨-1, false, some faultGetWriter⟩

/-- Model of `pty_get_writer` (lines 183-214), threading the master's
writer-taken state. -/
def pty_get_writer (masterNull outWriterNull : Bool)
    (st : MasterState) : MasterState × StreamOut :=
  if masterNull || outWriterNull then (st, ⟨-1, false, none⟩)
  else
    match take_writer st with
    | (st1, res) => (st1, get_writer_body res)

/-- Model of `pty_read` (lines 229-259); `res` carries the byte count
reported by the underlying `read`. -/
def pty_read (readerNull bufNull : Bool) (len : Nat)
    (res : PrimResult Nat) : IOOut :=
  if readerNull || bufNull then ⟨-1, none⟩
  else
    match res with
    | .ok n => ⟨isizeOfNat n, none⟩
    | .err e => ⟨-1, some (cstringOr e unknownErr)⟩
    | .panic => ⟨-1, some faultRead⟩

/-- Model of `pty_write` (lines 274-304). -/
def pty_write (writerNull bufNull : Bool) (len : Nat)
    (res : PrimResult Nat) : IOOut :=
  if writerNull || bufNull then ⟨-1, none⟩
  else
    match res with
    | .ok n => ⟨isizeOfNat n, none⟩
    | .err e => ⟨-1, some (cstringOr e unknownErr)⟩
    | .panic => ⟨-1, some faultWrite⟩

/-- Model of `pty_resize` (lines 317-351). -/
def pty_resize (masterNull : Bool) (rows cols : Nat)
    (res : PrimResult Unit) : IOOut :=
  if masterNull then ⟨-1, none⟩
  else
    match res with
    | .ok _ => ⟨0, none⟩
    | .err e => ⟨-1, some (cstringOr e unknownErr)⟩
    | .panic => ⟨-1, some faultResize⟩

/-- Observable effects of one `pty_child_wait` call: return value, the
values written to `exit_code_out` and `signal_out`, the diagnostic slot,
and whether the child handle was consumed (taken via `Box::from_raw`). -/
structure WaitOut where
  ret : Int
  exitWritten : Option Int
  sigWritten : Option Int
  errWritten : Option String
  consumed : Bool
deriving DecidableEq

/-- Model of `pty_child_wait` (lines 450-476); `res` carries
`status.success()`.  On a panic inside `wait` the box already taken by
`Box::from_raw` is dropped by unwinding and `result.unwrap_or(-1)` yields
`-1` without writing a diagnostic. -/
def pty_child_wait (childNull exitOutNull sigOutNull : Bool)
    (res : PrimResult Bool) : WaitOut :=
  if childNull || exitOutNull || sigOutNull then ⟨-1, none, none, none, false⟩
  else
    match res with
    | .ok success =>
        ⟨0, some (if success then 0 else 1), some 0, none, true⟩
    | .err e => ⟨-1, none, none, some (cstringOr e unknownErr), true⟩
    | .panic => ⟨-1, none, none, none, true⟩

/-- Model of `pty_child_kill` (lines 488-505); `result.unwrap_or(-1)` on
panic, no diagnostic written in that case. -/
def pty_child_kill (childNull : Bool) (res : PrimResult Unit) : IOOut :=
  if childNull then ⟨-1, none⟩
  else
    match res with
    | .ok _ => ⟨0, none⟩
    | .err e => ⟨-1, some (cstringOr e unknownErr)⟩
    | .panic => ⟨-1, none⟩

/-- Model of `pty_child_is_alive` (lines 515-528); the function takes no
diagnostic slot at all.  `res` carries the `try_wait` outcome
(`some s` = exited with `status.success() = s`, `none` = still running). -/
def pty_child_is_alive (childNull : Bool)
    (res : PrimResult (Option Bool)) : Int :=
  if childNull then -1
  else
    match res with
    | .ok (some _) => 0
    | .ok none => 1
    | .err _ => -1
    | .panic => -1

/-- Observable effects of one `pty_child_try_wait` call (it only borrows
the child handle). -/
structure TryWaitOut where
  ret : Int
  exitWritten : Option Int
  sigWritten : Option Int
  errWritten : Option String
deriving DecidableEq

/-- Model of `pty_child_try_wait` (lines 540-567); `result.unwrap_or(-1)`
on panic, no diagnostic written in that case. -/
def pty_child_try_wait (childNull exitOutNull sigOutNull : Bool)
    (res : PrimResult (Option Bool)) : TryWaitOut :=
  if childNull || exitOutNull || sigOutNull then ⟨-1, none, none, none⟩
  else
    match res with
    | .ok (some success) =>
        ⟨0, some (if success then 0 else 1), some 0, none⟩
    | .ok none => ⟨1, none, none, none⟩
    | .err e => ⟨-1, none, none, some (cstringOr e unknownErr)⟩
    | .panic => ⟨-1, none, none, none⟩

/-- Helper: the `bytes as isize` cast is the identity on byte counts below
the signed 64-bit bound (guaranteed because a Rust slice never exceeds
`isize::MAX` bytes and `read`/`write` report at most the slice length). -/
theorem isizeOfNat_small (n : Nat) (h : n < 2 ^ 63) :
    isizeOfNat n = (n : Int) := by
  have h64 : n < 2 ^ 64 := lt_trans h (by norm_num)
  unfold isizeOfNat
  rw [Nat.mod_eq_of_lt h64, if_pos h]

/-- Helper: the argument loop collects exactly the non-null entries in
order, i.e. it computes `List.filterMap id`. -/
theorem buildArgs_eq_filterMap (l : List (Option String)) :
    buildArgs l = l.filterMap id := by
  induction l with
  | nil => rfl
  | cons hd tl ih => cases hd <;> simp [buildArgs, ih]

/-- C1: pty_open_and_spawn is atomic: it returns 0 or -1; on 0 both the
master and child output slots hold fresh handles; on -1 neither output
slot is written and, whenever the pty pair had already been opened, the
pair is dropped before returning (explicitly on spawn error, by unwinding
on a caught panic). -/
theorem pty_open_and_spawn_atomic (m c p : Bool) (prog : String)
    (an : Bool) (argv : List (Option String))
    (openRes spawnRes : PrimResult Unit) :
    let u := pty_open_and_spawn m c p prog an argv openRes spawnRes
    (u.ret = 0 ∨ u.ret = -1) ∧
    (u.ret = 0 → u.masterWritten = true ∧ u.childWritten = true) ∧
    (u.ret = -1 → u.masterWritten = false ∧ u.childWritten = false ∧
      (u.pairOpened = true → u.pairDropped = true)) := by
  cases m <;> cases c <;> cases p <;> cases openRes <;> cases spawnRes <;>
    simp [pty_open_and_spawn]

/-- Witness for C1 at concrete inputs: a spawn failure surfaces no master
handle, a full success surfaces the child handle. -/
theorem pty_open_and_spawn_atomic_witness :
    (pty_open_and_spawn false false false unknownErr false []
      (.ok ()) (.err unknownErr)).masterWritten = false ∧
    (pty_open_and_spawn false false false unknownErr false []
      (.ok ()) (.ok ())).childWritten = true := by
  constructor
  · exact ((pty_open_and_spawn_atomic false false false unknownErr false []
      (.ok ()) (.err unknownErr)).2.2 rfl).1
  · exact ((pty_open_and_spawn_atomic false false false unknownErr false []
      (.ok ()) (.ok ())).2.1 rfl).2

/-- C2 counterexample: a panic inside pty_child_wait (valid arguments) is
converted to -1 but no diagnostic message is written to the slot, contrary
to the claim that every boundary operation writes a generic diagnostic on
a caught panic. -/
theorem pty_child_wait_panic_silent :
    (pty_child_wait false false false .panic).ret = -1 ∧
    (pty_child_wait false false false .panic).errWritten = none :=
  ⟨rfl, rfl⟩

/-- C2 amended: a panic inside any boundary operation is caught and
converted to the operation's normal failure return value (-1); a generic
diagnostic is additionally written for pty_open_and_spawn, pty_get_reader,
pty_get_writer, pty_read, pty_write and pty_resize, while pty_child_wait,
pty_child_kill, pty_child_is_alive and pty_child_try_wait return -1
without writing any diagnostic (pty_child_is_alive has no slot at all). -/
theorem panic_containment (prog : String) (an : Bool)
    (argv : List (Option String)) (spawnRes : PrimResult Unit)
    (len r c : Nat) :
    (pty_open_and_spawn false false false prog an argv .panic spawnRes =
      ⟨-1, false, false, some panicOpenSpawnMsg,
        true, false, false, false, none⟩) ∧
    (pty_open_and_spawn false false false prog an argv (.ok ()) .panic =
      ⟨-1, false, false, some panicOpenSpawnMsg, true, true, true, true,
        some (prog, argsFor an argv)⟩) ∧
    (pty_get_reader false false .panic = ⟨-1, false, some faultGetReader⟩) ∧
    (get_writer_body .panic = ⟨-1, false, some faultGetWriter⟩) ∧
    (pty_read false false len .panic = ⟨-1, some faultRead⟩) ∧
    (pty_write false false len .panic = ⟨-1, some faultWrite⟩) ∧
    (pty_resize false r c .panic = ⟨-1, some faultResize⟩) ∧
    (pty_child_wait false false false .panic = ⟨-1, none, none, none, true⟩) ∧
    (pty_child_kill false .panic = ⟨-1, none⟩) ∧
    (pty_child_is_alive false .panic = -1) ∧
    (pty_child_try_wait false false false .panic = ⟨-1, none, none, none⟩) :=
  ⟨rfl, rfl, rfl, rfl, rfl, rfl, rfl, rfl, rfl, rfl, rfl⟩

/-- C3 counterexample: with a valid non-null child handle but a null
exit_code_out, pty_child_wait returns -1 without consuming the child
handle, contrary to the claim that the handle is consumed on every call
with a non-null child. -/
theorem pty_child_wait_null_out_not_consumed :
    (pty_child_wait false true false (.ok true)).ret = -1 ∧
    (pty_child_wait false true false (.ok true)).consumed = false :=
  ⟨rfl, rfl⟩

/-- C3 amended: when child, exit_code_out and signal_out are all non-null,
pty_child_wait consumes the child handle whatever the outcome; a observed
termination yields return 0 with exit code 0 / signal 0 on success and
exit code 1 / signal 0 otherwise, and a wait failure or panic yields -1;
when exit_code_out or signal_out is null the call returns -1 without
consuming the handle. -/
theorem pty_child_wait_consumes (res : PrimResult Bool) (success : Bool)
    (e : String) :
    ((pty_child_wait false false false res).consumed = true) ∧
    (pty_child_wait false false false (.ok success) =
      ⟨0, some (if success then 0 else 1), some 0, none, true⟩) ∧
    ((pty_child_wait false false false (.err e)).ret = -1) ∧
    ((pty_child_wait false false false .panic).ret = -1) ∧
    (pty_child_wait false true false res = ⟨-1, none, none, none, false⟩) ∧
    (pty_child_wait false false true res = ⟨-1, none, none, none, false⟩) := by
  refine ⟨?_, rfl, rfl, rfl, rfl, rfl⟩
  cases res <;> rfl

/-- C4: pty_get_writer succeeds at most once per controller lifetime: a
successful call (return 0) marks the controller's writer taken, takenness
is preserved by every later call, and any call on a taken controller with
non-null arguments returns -1 with the already-taken message in the same
diagnostic slot as any other failure. -/
theorem pty_get_writer_at_most_once (st : MasterState) (m w : Bool) :
    ((pty_get_writer false false st).2.ret = 0 →
      (pty_get_writer false false st).1.writerTaken = true) ∧
    (st.writerTaken = true → (pty_get_writer m w st).1.writerTaken = true) ∧
    (st.writerTaken = true →
      (pty_get_writer false false st).2.ret = -1 ∧
      (pty_get_writer false false st).2.errWritten = some writerTakenMsg) := by
  obtain ⟨t⟩ := st
  cases t <;> cases m <;> cases w <;>
    simp [pty_get_writer, take_writer, get_writer_body, cstringOr,
      writerTakenMsg]

/-- Witness for C4: on a fresh controller the take succeeds and marks the
writer taken; on a taken controller the call fails. -/
theorem pty_get_writer_at_most_once_witness :
    (pty_get_writer false false ⟨false⟩).1.writerTaken = true ∧
    (pty_get_writer false false ⟨true⟩).2.ret = -1 := by
  constructor
  · exact (pty_get_writer_at_most_once ⟨false⟩ false false).1 rfl
  · exact ((pty_get_writer_at_most_once ⟨true⟩ false false).2.2 rfl).1

/-- C5 counterexample: pty_child_kill with valid arguments fails (-1) on a
caught panic yet leaves the diagnostic slot untouched, contrary to the
claim that every failing fallible operation populates its slot. -/
theorem pty_child_kill_panic_silent :
    (pty_child_kill false .panic).ret = -1 ∧
    (pty_child_kill false .panic).errWritten = none :=
  ⟨rfl, rfl⟩

/-- C5 amended: every fallible boundary operation except pty_child_is_alive
(which has no slot) accepts a diagnostic slot; on success it is left
untouched, and when the underlying primitive reports an error the slot is
populated; however caught panics in the child-lifecycle operations, and the
null-argument rejections of every operation other than pty_open_and_spawn,
fail without populating the slot. -/
theorem diagnostic_slot_discipline (prog : String) (an : Bool)
    (argv : List (Option String)) (len r c n : Nat) (s : Bool)
    (e : String) (ts : Option Bool) :
    ((pty_open_and_spawn false false false prog an argv
        (.ok ()) (.ok ())).errWritten = none) ∧
    ((pty_get_reader false false (.ok ())).errWritten = none) ∧
    ((pty_get_writer false false ⟨false⟩).2.errWritten = none) ∧
    ((pty_read false false len (.ok n)).errWritten = none) ∧
    ((pty_write false false len (.ok n)).errWritten = none) ∧
    ((pty_resize false r c (.ok ())).errWritten = none) ∧
    ((pty_child_wait false false false (.ok s)).errWritten = none) ∧
    ((pty_child_kill false (.ok ())).errWritten = none) ∧
    ((pty_child_try_wait false false false (.ok ts)).errWritten = none) ∧
    ((pty_open_and_spawn false false false prog an argv
        (.err e) (.ok ())).errWritten.isSome = true) ∧
    ((pty_open_and_spawn false false false prog an argv
        (.ok ()) (.err e)).errWritten.isSome = true) ∧
    ((pty_get_reader false false (.err e)).errWritten.isSome = true) ∧
    ((get_writer_body (.err e)).errWritten.isSome = true) ∧
    ((pty_read false false len (.err e)).errWritten.isSome = true) ∧
    ((pty_write false false len (.err e)).errWritten.isSome = true) ∧
    ((pty_resize false r c (.err e)).errWritten.isSome = true) ∧
    ((pty_child_wait false false false (.err e)).errWritten.isSome = true) ∧
    ((pty_child_kill false (.err e)).errWritten.isSome = true) ∧
    ((pty_child_try_wait false false false
        (.err e)).errWritten.isSome = true) ∧
    ((pty_get_reader true false (.err e)).errWritten = none) ∧
    ((pty_child_kill false .panic).errWritten = none) ∧
    ((pty_child_wait false false false .panic).errWritten = none) ∧
    ((pty_child_try_wait false false false .panic).errWritten = none) := by
  refine ⟨rfl, rfl, rfl, rfl, rfl, rfl, rfl, rfl, ?_, rfl, rfl, rfl, rfl,
    rfl, rfl, rfl, rfl, rfl, rfl, rfl, rfl, rfl, rfl⟩
  cases ts <;> rfl

/-- C6: return-value conventions: pty_read and pty_write return the
transferred byte count unchanged (non-negative) or -1 on any failure;
pty_open_and_spawn, pty_get_reader, pty_get_writer, pty_resize,
pty_child_wait and pty_child_kill return 0 or -1; pty_child_try_wait and
pty_child_is_alive return only values in \x7b-1, 0, 1\x7d, with 1 meaning
still running / alive. -/
theorem return_conventions (len n : Nat) (hn : n ≤ len)
    (hl : len < 2 ^ 63) (m c p an b1 b2 b3 : Bool) (prog e : String)
    (argv : List (Option String)) (o s cr kres : PrimResult Unit)
    (st : MasterState) (r cc : Nat) (rv wv : PrimResult Nat)
    (wres : PrimResult Bool) (tres ares : PrimResult (Option Bool)) :
    ((pty_read false false len (.ok n)).ret = (n : Int)) ∧
    ((pty_write false false len (.ok n)).ret = (n : Int)) ∧
    ((pty_read b1 b2 len (.err e)).ret = -1) ∧
    ((pty_read b1 b2 len .panic).ret = -1) ∧
    ((pty_write b1 b2 len (.err e)).ret = -1) ∧
    ((pty_write b1 b2 len .panic).ret = -1) ∧
    (let u := pty_open_and_spawn m c p prog an argv o s
     u.ret = 0 ∨ u.ret = -1) ∧
    ((pty_get_reader b1 b2 cr).ret = 0 ∨ (pty_get_reader b1 b2 cr).ret = -1) ∧
    ((pty_get_writer b1 b2 st).2.ret = 0 ∨
      (pty_get_writer b1 b2 st).2.ret = -1) ∧
    ((pty_resize b1 r cc cr).ret = 0 ∨ (pty_resize b1 r cc cr).ret = -1) ∧
    ((pty_child_wait b1 b2 b3 wres).ret = 0 ∨
      (pty_child_wait b1 b2 b3 wres).ret = -1) ∧
    ((pty_child_kill b1 kres).ret = 0 ∨ (pty_child_kill b1 kres).ret = -1) ∧
    ((pty_child_try_wait b1 b2 b3 tres).ret = -1 ∨
      (pty_child_try_wait b1 b2 b3 tres).ret = 0 ∨
      (pty_child_try_wait b1 b2 b3 tres).ret = 1) ∧
    (pty_child_is_alive b1 ares = -1 ∨ pty_child_is_alive b1 ares = 0 ∨
      pty_child_is_alive b1 ares = 1) := by
  have h63 : n < 2 ^ 63 := lt_of_le_of_lt hn hl
  refine ⟨?_, ?_, ?_, ?_, ?_, ?_, ?_, ?_, ?_, ?_, ?_, ?_, ?_, ?_⟩
  · exact isizeOfNat_small n h63
  · exact isizeOfNat_small n h63
  · cases b1 <;> cases b2 <;> simp [pty_read]
  · cases b1 <;> cases b2 <;> simp [pty_read]
  · cases b1 <;> cases b2 <;> simp [pty_write]
  · cases b1 <;> cases b2 <;> simp [pty_write]
  · cases m <;> cases c <;> cases p <;> cases o <;> cases s <;>
      simp [pty_open_and_spawn]
  · cases b1 <;> cases b2 <;> cases cr <;> simp [pty_get_reader]
  · obtain ⟨t⟩ := st
    cases b1 <;> cases b2 <;> cases t <;>
      simp [pty_get_writer, take_writer, get_writer_body]
  · cases b1 <;> cases cr <;> simp [pty_resize]
  · cases b1 <;> cases b2 <;> cases b3 <;> cases wres <;>
      simp [pty_child_wait]
  · cases b1 <;> cases kres <;> simp [pty_child_kill]
  · cases b1 <;> cases b2 <;> cases b3 <;>
      rcases tres with ts | te | _ <;>
      first
        | (cases ts <;> simp [pty_child_try_wait])
        | simp [pty_child_try_wait]
  · cases b1 <;>
      rcases ares with ts | te | _ <;>
      first
        | (cases ts <;> simp [pty_child_is_alive])
        | simp [pty_child_is_alive]

/-- Witness for C6 at concrete inputs: a read of 5 bytes into an 8-byte
buffer returns 5. -/
theorem return_conventions_witness :
    (pty_read false false 8 (.ok 5)).ret = ((5 : Nat) : Int) :=
  (return_conventions 8 5 (by decide) (by decide) false false false false
    false false false unknownErr unknownErr [] (.ok ()) (.ok ()) (.ok ())
    (.ok ()) ⟨false⟩ 1 1 (.ok 5) (.ok 5) (.ok true) (.ok none)
    (.ok none)).1

/-- C7: a null handle makes each dereferencing operation return -1
immediately, independently of the primitive outcome and without touching
the diagnostic slot; a null program pointer makes pty_open_and_spawn
return -1 without invoking the openpty or spawn primitives. -/
theorem null_handle_rejection (b1 b2 : Bool) (cr : PrimResult Unit)
    (st : MasterState) (len r c : Nat) (rv wv : PrimResult Nat)
    (wres : PrimResult Bool) (kres : PrimResult Unit)
    (tres ares : PrimResult (Option Bool)) (mo co an : Bool)
    (prog : String) (argv : List (Option String))
    (o s : PrimResult Unit) :
    (pty_get_reader true b2 cr = ⟨-1, false, none⟩) ∧
    (pty_get_writer true b2 st = (st, ⟨-1, false, none⟩)) ∧
    (pty_read true b2 len rv = ⟨-1, none⟩) ∧
    (pty_write true b2 len wv = ⟨-1, none⟩) ∧
    (pty_resize true r c cr = ⟨-1, none⟩) ∧
    (pty_child_wait true b1 b2 wres = ⟨-1, none, none, none, false⟩) ∧
    (pty_child_kill true kres = ⟨-1, none⟩) ∧
    (pty_child_is_alive true ares = -1) ∧
    (pty_child_try_wait true b1 b2 tres = ⟨-1, none, none, none⟩) ∧
    ((pty_open_and_spawn mo co true prog an argv o s).ret = -1 ∧
      (pty_open_and_spawn mo co true prog an argv o s).openInvoked = false ∧
      (pty_open_and_spawn mo co true prog an argv o s).spawnInvoked
        = false) := by
  refine ⟨rfl, rfl, rfl, rfl, rfl, rfl, rfl, rfl, rfl, ?_⟩
  cases mo <;> cases co <;> simp [pty_open_and_spawn]

/-- C8: pty_read with a valid reader and buffer returns the byte count
reported by the underlying stream unchanged as a non-negative value, so
end-of-stream is signalled by returning 0 with no diagnostic, and only an
underlying fault or caught panic yields -1 with a diagnostic message. -/
theorem pty_read_eof_and_errors (len n : Nat) (hn : n ≤ len)
    (hl : len < 2 ^ 63) (e : String) :
    ((pty_read false false len (.ok n)).ret = (n : Int) ∧
      (pty_read false false len (.ok n)).errWritten = none) ∧
    ((pty_read false false len (.ok 0)).ret = 0 ∧
      (pty_read false false len (.ok 0)).errWritten = none) ∧
    ((pty_read false false len (.err e)).ret = -1 ∧
      (pty_read false false len (.err e)).errWritten.isSome = true) ∧
    ((pty_read false false len .panic).ret = -1 ∧
      (pty_read false false len .panic).errWritten = some faultRead) := by
  have h63 : n < 2 ^ 63 := lt_of_le_of_lt hn hl
  refine ⟨⟨?_, rfl⟩, ⟨rfl, rfl⟩, ⟨rfl, rfl⟩, ⟨rfl, rfl⟩⟩
  exact isizeOfNat_small n h63

/-- Witness for C8 at concrete inputs: reading 0 bytes (end-of-stream)
into a 4-byte buffer returns 0 with no diagnostic. -/
theorem pty_read_eof_and_errors_witness :
    (pty_read false false 4 (.ok 0)).ret = 0 ∧
    (pty_read false false 4 (.ok 0)).errWritten = none :=
  (pty_read_eof_and_errors 4 0 (by decide) (by decide) unknownErr).2.1

/-- C9: with an explicit count, the spawned command's descriptor holds
exactly the non-null entries of argv in their original relative order
(null entries are skipped, not treated as terminators): the argument list
passed to spawn equals argv.filterMap id. -/
theorem spawn_args_exact (prog : String) (argv : List (Option String))
    (spawnRes : PrimResult Unit) :
    (pty_open_and_spawn false false false prog false argv (.ok ())
      spawnRes).spawnCmd = some (prog, argv.filterMap id) := by
  cases spawnRes <;> cases argv <;>
    simp [pty_open_and_spawn, argsFor, buildArgs, buildArgs_eq_filterMap]

/-- C10: result output slots are written only on the corresponding
success outcome: pty_open_and_spawn leaves the master/child slots
unwritten on every non-zero return, pty_get_reader and pty_get_writer
leave their out slots unwritten on -1, and pty_child_wait and
pty_child_try_wait leave exit_code_out and signal_out unwritten on -1 and
on 1 (still running). -/
theorem out_slots_only_on_success (mo co p an b1 b2 b3 : Bool)
    (prog : String) (argv : List (Option String))
    (o s cr : PrimResult Unit) (st : MasterState)
    (wres : PrimResult Bool) (tres : PrimResult (Option Bool)) :
    (let u := pty_open_and_spawn mo co p prog an argv o s
     u.ret ≠ 0 → u.masterWritten = false ∧ u.childWritten = false) ∧
    ((pty_get_reader b1 b2 cr).ret = -1 →
      (pty_get_reader b1 b2 cr).outWritten = false) ∧
    ((pty_get_writer b1 b2 st).2.ret = -1 →
      (pty_get_writer b1 b2 st).2.outWritten = false) ∧
    (let w := pty_child_wait b1 b2 b3 wres
     w.ret = -1 → w.exitWritten = none ∧ w.sigWritten = none) ∧
    (let t := pty_child_try_wait b1 b2 b3 tres
     t.ret = -1 ∨ t.ret = 1 →
       t.exitWritten = none ∧ t.sigWritten = none) := by
  refine ⟨?_, ?_, ?_, ?_, ?_⟩
  · cases mo <;> cases co <;> cases p <;> cases o <;> cases s <;>
      simp [pty_open_and_spawn]
  · cases b1 <;> cases b2 <;> cases cr <;> simp [pty_get_reader]
  · obtain ⟨t⟩ := st
    cases b1 <;> cases b2 <;> cases t <;>
      simp [pty_get_writer, take_writer, get_writer_body]
  · cases b1 <;> cases b2 <;> cases b3 <;> cases wres <;>
      simp [pty_child_wait]
  · cases b1 <;> cases b2 <;> cases b3 <;>
      rcases tres with ts | te | _ <;>
      first
        | (cases ts <;> simp [pty_child_try_wait])
        | simp [pty_child_try_wait]

/-- Witness for C10 at concrete inputs: a spawn failure leaves the master
slot unwritten. -/
theorem out_slots_only_on_success_witness :
    (pty_open_and_spawn false false false spawnFailDflt false []
      (.ok ()) (.err spawnFailDflt)).masterWritten = false :=
  ((out_slots_only_on_success false false false false false false false
    spawnFailDflt [] (.ok ()) (.err spawnFailDflt) (.ok ()) ⟨false⟩
    (.ok true) (.ok none)).1 (by decide)).1

end PtyFFI
